import Mathlib

/-!
Shallow embedding of `lambda.py` from the meraki-webhook-alert-processor
repository: the Meraki webhook alert processor built around Amazon Bedrock
model invocation with cross-region inference-profile routing, a fallback
model cascade, and response normalization.

JSON values are modelled by the inductive `JVal`; Python dictionaries are
association lists preserving insertion order; Python exceptions are
modelled with `Except PyErr`.  External collaborators (the Bedrock
transport, the notification channels, the clock) are parameters.
-/

/-- A JSON value as produced by Python's `json.loads`.  Non-integral
numbers keep their source lexeme in `fnum`; no claim computes with float
values, only with their truthiness, which is recovered syntactically. -/
inductive JVal where
  | null
  | bool (b : Bool)
  | num (n : Int)
  | fnum (lexeme : String)
  | str (s : String)
  | arr (elems : List JVal)
  | obj (fields : List (String × JVal))

mutual

/-- Structural equality of JSON values (Python `==` on loaded values). -/
def jvalBeq : JVal → JVal → Bool
  | .null, .null => true
  | .bool a, .bool b => a == b
  | .num a, .num b => a == b
  | .fnum a, .fnum b => a == b
  | .str a, .str b => a == b
  | .arr xs, .arr ys => jvalListBeq xs ys
  | .obj fs, .obj gs => jvalFieldsBeq fs gs
  | _, _ => false

/-- Pointwise equality of JSON arrays. -/
def jvalListBeq : List JVal → List JVal → Bool
  | [], [] => true
  | x :: xs, y :: ys => jvalBeq x y && jvalListBeq xs ys
  | _, _ => false

/-- Pointwise equality of JSON object field lists. -/
def jvalFieldsBeq : List (String × JVal) → List (String × JVal) → Bool
  | [], [] => true
  | (k, v) :: fs, (k2, w) :: gs => k == k2 && jvalBeq v w && jvalFieldsBeq fs gs
  | _, _ => false

end

instance : BEq JVal := ⟨jvalBeq⟩

/-- Python exceptions relevant to `lambda.py`, each carrying the text that
`str(e)` would produce (messages of interpreter-raised errors are
approximated; only messages originating from the modelled code matter to
the claims). `jsonDecodeError` is a subclass of `valueError` in Python and
is treated as such wherever `except ValueError` appears. -/
inductive PyErr where
  | clientError (msg : String)
  | valueError (msg : String)
  | typeError (msg : String)
  | keyError (msg : String)
  | indexError (msg : String)
  | attributeError (msg : String)
  | jsonDecodeError (msg : String)
deriving Repr, BEq, DecidableEq

/-- The text `str(e)` of an exception. -/
def PyErr.text : PyErr → String
  | .clientError m => m
  | .valueError m => m
  | .typeError m => m
  | .keyError m => m
  | .indexError m => m
  | .attributeError m => m
  | .jsonDecodeError m => m

/-- First-match lookup in an association list (Python dict read). -/
def lookupKey {α : Type} (ps : List (String × α)) (k : String) : Option α :=
  match ps with
  | [] => none
  | (k2, v) :: rest => if k2 = k then some v else lookupKey rest k

/-- Python dict item assignment: overwrite in place, else append
(insertion order preserved, as CPython dicts do). -/
def setField (fs : List (String × JVal)) (k : String) (v : JVal) :
    List (String × JVal) :=
  match fs with
  | [] => [(k, v)]
  | (k2, w) :: rest =>
    if k2 = k then (k2, v) :: rest else (k2, w) :: setField rest k v

/-- `dict.get(k, d)`. -/
def dictGetD (fs : List (String × JVal)) (k : String) (d : JVal) : JVal :=
  match lookupKey fs k with
  | some v => v
  | none => d

/-- Substring test, modelling Python's `needle in hay` on strings. -/
def strContainsSub (hay needle : String) : Bool :=
  decide (needle.toList <:+: hay.toList)

/-- Model of Python's `str.startswith`. -/
def pyStartsWith (s p : String) : Bool :=
  p.toList.isPrefixOf s.toList

/-- Truthiness of a float literal: falsy exactly when it denotes zero.
Judged syntactically from the significand digits (exponent-underflow to
zero is not modelled); `NaN`/`Infinity` are truthy. -/
def fnumTruthy (lex : String) : Bool :=
  let sig := lex.toList.takeWhile (fun c => c != 'e' && c != 'E')
  sig.any (fun c => c.isDigit && c != '0')
    || lex.toList.any (fun c => c == 'N' || c == 'I')

/-- Python truthiness of a JSON value. -/
def truthy : JVal → Bool
  | .null => false
  | .bool b => b
  | .num n => n != 0
  | .fnum lex => fnumTruthy lex
  | .str s => s != ""
  | .arr xs => !xs.isEmpty
  | .obj fs => !fs.isEmpty

/-- Python `k in v` for a string key: dict key lookup, list membership,
substring test on strings; `TypeError` on non-container values. -/
def pyContains (v : JVal) (k : String) : Except PyErr Bool :=
  match v with
  | .obj fs => .ok (lookupKey fs k).isSome
  | .arr xs => .ok (xs.contains (JVal.str k))
  | .str s => .ok (strContainsSub s k)
  | _ => .error (.typeError "argument is not a container")

/-- Python `v[k]` for a string key. -/
def pyGetItem (v : JVal) (k : String) : Except PyErr JVal :=
  match v with
  | .obj fs =>
    match lookupKey fs k with
    | some x => .ok x
    | none => .error (.keyError k)
  | _ => .error (.typeError "value does not support string indexing")

/-- Python `v[k] = x` for a string key (functional: returns the updated
value). -/
def pySetItem (v : JVal) (k : String) (x : JVal) : Except PyErr JVal :=
  match v with
  | .obj fs => .ok (.obj (setField fs k x))
  | _ => .error (.typeError "value does not support item assignment")

/-- Python `v[0]`. -/
def pyIndexZero (v : JVal) : Except PyErr JVal :=
  match v with
  | .arr (x :: _) => .ok x
  | .arr [] => .error (.indexError "list index out of range")
  | .str s =>
    match s.toList with
    | c :: _ => .ok (.str (String.mk [c]))
    | [] => .error (.indexError "string index out of range")
  | .obj _ => .error (.keyError "0")
  | _ => .error (.typeError "value is not subscriptable")

/-- The whitespace set of Python's `str.strip()`. -/
def isPySpace (c : Char) : Bool :=
  c == ' ' || c == '\t' || c == '\n' || c == '\r' || c == '\x0b' || c == '\x0c'

/-- Python `str.upper()` (ASCII; the enum comparisons only involve
ASCII letters). -/
def pyUpper (s : String) : String :=
  String.mk (s.toList.map Char.toUpper)

/-- Python `str.strip()`. -/
def pyStrip (s : String) : String :=
  String.mk (((s.toList.dropWhile isPySpace).reverse.dropWhile isPySpace).reverse)

/-- Python slice `s[a:-b]` (`a`, `b` nonnegative): characters from index
`a` up to `len - b` exclusive; empty when the range is empty, thanks to
truncated `Nat` subtraction mirroring Python's clamping. -/
def pySliceOuter (s : String) (a b : Nat) : String :=
  String.mk ((s.toList.drop a).take (s.toList.length - b - a))

/-! ### A model of Python's `json.loads`

An executable parser for the JSON accepted by Python's `json` module
(strict mode): the standard JSON grammar plus the constants `NaN`,
`Infinity` and `-Infinity`.  Raw control characters inside strings are
rejected, trailing data after the top-level value is rejected, duplicate
object keys keep the last occurrence.  `\uXXXX` escapes denoting lone
surrogates are approximated by the NUL character (no claim depends on
them). -/

/-- JSON inter-token whitespace (the set Python's `json` module skips). -/
def jsonWs (c : Char) : Bool :=
  c == ' ' || c == '\t' || c == '\n' || c == '\r'

/-- Skip inter-token whitespace. -/
def skipWs (l : List Char) : List Char := l.dropWhile jsonWs

/-- Value of a hexadecimal digit. -/
def hexVal (c : Char) : Option Nat :=
  if c.isDigit then some (c.toNat - 48)
  else if 97 ≤ c.toNat && c.toNat ≤ 102 then some (c.toNat - 87)
  else if 65 ≤ c.toNat && c.toNat ≤ 70 then some (c.toNat - 55)
  else none

/-- Decode the body of a JSON string after the opening quote, returning
the decoded characters and the input after the closing quote. -/
def parseStringBody : List Char → Option (List Char × List Char)
  | [] => none
  | '"' :: rest => some ([], rest)
  | '\\' :: 'u' :: a :: b :: c :: d :: rest =>
    match hexVal a, hexVal b, hexVal c, hexVal d with
    | some ha, some hb, some hc, some hd =>
      match parseStringBody rest with
      | some (cs, rem) =>
        some (Char.ofNat (((ha * 16 + hb) * 16 + hc) * 16 + hd) :: cs, rem)
      | none => none
    | _, _, _, _ => none
  | '\\' :: e :: rest =>
    let c? : Option Char :=
      if e == '"' then some '"'
      else if e == '\\' then some '\\'
      else if e == '/' then some '/'
      else if e == 'b' then some '\x08'
      else if e == 'f' then some '\x0c'
      else if e == 'n' then some '\n'
      else if e == 'r' then some '\r'
      else if e == 't' then some '\t'
      else none
    match c? with
    | some c =>
      match parseStringBody rest with
      | some (cs, rem) => some (c :: cs, rem)
      | none => none
    | none => none
  | c :: rest =>
    if c.toNat < 32 then none
    else
      match parseStringBody rest with
      | some (cs, rem) => some (c :: cs, rem)
      | none => none

/-- Numeric value of a digit list. -/
def digitsVal (ds : List Char) : Nat :=
  ds.foldl (fun acc c => acc * 10 + (c.toNat - 48)) 0

/-- Parse a JSON number (or `Infinity` after a minus sign), following the
strict grammar: no leading zeros, a fraction and exponent each need at
least one digit.  Integral numbers become `JVal.num`; numbers with a
fraction or exponent keep their lexeme as `JVal.fnum`. -/
def parseNumber (l : List Char) : Option (JVal × List Char) :=
  let (neg, l1) := match l with
    | '-' :: rest => (true, rest)
    | _ => (false, l)
  match l1 with
  | 'I' :: 'n' :: 'f' :: 'i' :: 'n' :: 'i' :: 't' :: 'y' :: rest =>
    if neg then some (.fnum "-Infinity", rest) else some (.fnum "Infinity", rest)
  | _ =>
    let intDigits := l1.takeWhile Char.isDigit
    let l2 := l1.dropWhile Char.isDigit
    if intDigits.isEmpty then none
    else if intDigits.length > 1 && intDigits.headD '0' == '0' then none
    else
      let (fracDigits, l3, fracOk) := match l2 with
        | '.' :: r =>
          let ds := r.takeWhile Char.isDigit
          ('.' :: ds, r.dropWhile Char.isDigit, !ds.isEmpty)
        | _ => ([], l2, true)
      let (expChars, l4, expOk) := match l3 with
        | 'e' :: r | 'E' :: r =>
          let (sgn, r2) := match r with
            | '+' :: r3 => (['+'], r3)
            | '-' :: r3 => (['-'], r3)
            | _ => ([], r)
          let ds := r2.takeWhile Char.isDigit
          ('e' :: sgn ++ ds, r2.dropWhile Char.isDigit, !ds.isEmpty)
        | _ => ([], l3, true)
      if !fracOk || !expOk then none
      else if fracDigits.isEmpty && expChars.isEmpty then
        let v : Int := Int.ofNat (digitsVal intDigits)
        some (.num (if neg then -v else v), l4)
      else
        let lex := (if neg then ['-'] else []) ++ intDigits ++ fracDigits ++ expChars
        some (.fnum (String.mk lex), l4)

mutual

/-- Parse one JSON value.  `fuel` bounds recursion depth; one unit is
consumed per nested construct, and callers supply far more fuel than any
input of the given length can use, so exhaustion never occurs on inputs
the grammar accepts. -/
def parseValue : Nat → List Char → Option (JVal × List Char)
  | 0, _ => none
  | fuel + 1, input =>
    match input with
    | [] => none
    | c :: rest =>
      if c == '"' then
        match parseStringBody rest with
        | some (cs, rem) => some (.str (String.mk cs), rem)
        | none => none
      else if c.toNat == 123 then
        parseObjBody fuel (skipWs rest) []
      else if c == '[' then
        parseArrBody fuel (skipWs rest) []
      else if c == 't' then
        match rest with
        | 'r' :: 'u' :: 'e' :: rem => some (.bool true, rem)
        | _ => none
      else if c == 'f' then
        match rest with
        | 'a' :: 'l' :: 's' :: 'e' :: rem => some (.bool false, rem)
        | _ => none
      else if c == 'n' then
        match rest with
        | 'u' :: 'l' :: 'l' :: rem => some (.null, rem)
        | _ => none
      else if c == 'N' then
        match rest with
        | 'a' :: 'N' :: rem => some (.fnum "NaN", rem)
        | _ => none
      else
        parseNumber input

/-- Parse the inside of a JSON object after the opening brace (leading
whitespace already skipped). -/
def parseObjBody : Nat → List Char → List (String × JVal) →
    Option (JVal × List Char)
  | 0, _, _ => none
  | fuel + 1, input, acc =>
    match input with
    | c :: rest =>
      if c.toNat == 125 then some (.obj acc, rest)
      else parseMembers fuel input acc
    | [] => none

/-- Parse one `"key": value` member and any following members. -/
def parseMembers : Nat → List Char → List (String × JVal) →
    Option (JVal × List Char)
  | 0, _, _ => none
  | fuel + 1, input, acc =>
    match input with
    | '"' :: rest =>
      match parseStringBody rest with
      | some (key, rem) =>
        match skipWs rem with
        | ':' :: rem2 =>
          match parseValue fuel (skipWs rem2) with
          | some (v, rem3) =>
            let acc2 := setField acc (String.mk key) v
            match skipWs rem3 with
            | c3 :: rem4 =>
              if c3 == ',' then parseMembers fuel (skipWs rem4) acc2
              else if c3.toNat == 125 then some (.obj acc2, rem4)
              else none
            | [] => none
          | none => none
        | _ => none
      | none => none
    | _ => none

/-- Parse the inside of a JSON array after the opening bracket (leading
whitespace already skipped). -/
def parseArrBody : Nat → List Char → List JVal → Option (JVal × List Char)
  | 0, _, _ => none
  | fuel + 1, input, acc =>
    match input with
    | c :: rest =>
      if c == ']' && acc.isEmpty then some (.arr [], rest)
      else parseElems fuel input acc
    | [] => none

/-- Parse one array element and any following elements. -/
def parseElems : Nat → List Char → List JVal → Option (JVal × List Char)
  | 0, _, _ => none
  | fuel + 1, input, acc =>
    match parseValue fuel input with
    | some (v, rem) =>
      match skipWs rem with
      | c :: rem2 =>
        if c == ',' then parseElems fuel (skipWs rem2) (acc ++ [v])
        else if c == ']' then some (.arr (acc ++ [v]), rem2)
        else none
      | [] => none
    | none => none

end

/-- Model of Python's `json.loads`: parse a complete JSON document,
rejecting trailing data.  Error messages approximate CPython's. -/
def json_loads (s : String) : Except PyErr JVal :=
  match parseValue (8 * (s.toList.length + 1)) (skipWs s.toList) with
  | some (v, rem) =>
    if (skipWs rem).isEmpty then .ok v
    else .error (.jsonDecodeError "Extra data")
  | none => .error (.jsonDecodeError "Expecting value")

/-! ### The response normalizer (`_validate_analysis_response`,
`_parse_bedrock_response`, `_create_fallback_analysis`) -/

/-- The per-field defaults of `_validate_analysis_response`, in the order
of the Python dict literal. -/
def analysisDefaults : List (String × JVal) :=
  [("severity", .str "MEDIUM"),
   ("category", .str "Unknown"),
   ("summary", .str "Alert received but analysis incomplete"),
   ("impact", .str "Unable to determine impact"),
   ("recommendations", .arr [.str "Manual review required",
                             .str "Check Meraki dashboard"]),
   ("requires_immediate_action", .bool true),
   ("estimated_resolution_time", .str "Unknown")]

/-- The valid severity levels. -/
def VALID_SEVERITIES : List String :=
  ["CRITICAL", "HIGH", "MEDIUM", "LOW", "INFO"]

/-- One iteration of the defaulting loop:
`if key not in response or not response[key]: response[key] = default`
(short-circuit evaluation: the item is read only when the key is
present). -/
def applyDefault (resp : JVal) (kv : String × JVal) : Except PyErr JVal := do
  let present ← pyContains resp kv.1
  let needDefault ←
    if present then do
      let v ← pyGetItem resp kv.1
      pure (!truthy v)
    else
      pure true
  if needDefault then pySetItem resp kv.1 kv.2 else pure resp

/-- `_validate_analysis_response`: fill missing/falsy fields with
defaults, then force severity to MEDIUM when its uppercased value is not
a valid severity.  Note the source checks `response['severity'].upper()`
but never writes the uppercased value back. -/
def validate_analysis_response (response : JVal) : Except PyErr JVal := do
  let r ← analysisDefaults.foldlM applyDefault response
  let sv ← pyGetItem r "severity"
  match sv with
  | .str s =>
    if VALID_SEVERITIES.contains (pyUpper s) then pure r
    else pySetItem r "severity" (.str "MEDIUM")
  | _ => .error (.attributeError "value has no attribute upper")

/-- `_create_fallback_analysis`. -/
def create_fallback_analysis (error_msg : String) : JVal :=
  .obj
    [("severity", .str "HIGH"),
     ("category", .str "System Error"),
     ("summary", .str ("Alert received but analysis failed: " ++ error_msg)),
     ("impact", .str "Unable to determine impact - manual review required"),
     ("recommendations", .arr
        [.str "Manual review required",
         .str "Check Meraki dashboard for details",
         .str "Contact system administrator if issues persist"]),
     ("requires_immediate_action", .bool true),
     ("estimated_resolution_time", .str "Unknown")]

/-- The clean-up step of `_parse_bedrock_response`: strip whitespace,
then remove markdown code fences by slicing (`[7:-3]` after a leading
"```json", `[3:-3]` after a leading "```"), stripping again. -/
def stripCodeFences (response_text : String) : String :=
  let t := pyStrip response_text
  if pyStartsWith t "```json" then pyStrip (pySliceOuter t 7 3)
  else if pyStartsWith t "```" then pyStrip (pySliceOuter t 3 3)
  else t

/-- `_parse_bedrock_response`: fence-strip, `json.loads`, validate.  Only
`json.JSONDecodeError` is caught (yielding the fallback analysis); errors
raised by `_validate_analysis_response` propagate. -/
def parse_bedrock_response (response_text : String) : Except PyErr JVal :=
  match json_loads (stripCodeFences response_text) with
  | .error _ => .ok (create_fallback_analysis "JSON parsing failed")
  | .ok parsed => validate_analysis_response parsed

/-! ### The invocation engine (`_invoke_bedrock_model`) -/

/-- Static configuration of `MerakiAlertProcessor`: the primary model id,
the fallback model list, and the cross-region inference-profile table
(whose values come from environment variables and may be unset). -/
structure Config where
  bedrock_model_id : String
  fallback_models : List String
  cross_region_models : List (String × Option String)

/-- `self.cross_region_models.get(model_id)` followed by the truthiness
test `if inference_profile_arn:`: an absent entry, an unset environment
variable, or an empty string all mean direct invocation. -/
def resolve_address (cfg : Config) (model_id : String) : Option String :=
  match lookupKey cfg.cross_region_models model_id with
  | some (some arn) => if arn = "" then none else some arn
  | _ => none

/-- Classification used by the retry handler: a `botocore.ClientError`
whose text contains "inference-profile". -/
def routingClassified : PyErr → Bool
  | .clientError msg => strContainsSub msg "inference-profile"
  | _ => false

/-- Extraction of the raw analysis text from a Bedrock response body:
`json.loads(response['body'].read())`, then `['content'][0]['text']`.
A non-string text field fails at the `.strip()` call inside
`_parse_bedrock_response`. -/
def extract_text (body : String) : Except PyErr String := do
  let rb ← json_loads body
  let content ← pyGetItem rb "content"
  let first ← pyIndexZero content
  let t ← pyGetItem first "text"
  match t with
  | .str s => pure s
  | _ => .error (.attributeError "value has no attribute strip")

/-- Envelope extraction plus normalization applied to the transport
outcome (the part of `_invoke_bedrock_model` after the try/except). -/
def invokeFinish (raw : Except PyErr String) : Except PyErr JVal :=
  match raw with
  | .error e => .error e
  | .ok body =>
    match extract_text body with
    | .error e => .error e
    | .ok text => parse_bedrock_response text

/-- Result of `_invoke_bedrock_model`, instrumented with the sequence of
`modelId` targets passed to `bedrock_runtime.invoke_model` and the next
transport-call index. -/
structure InvokeOut where
  result : Except PyErr JVal
  calls : List String
  next : Nat

/-- The try/except around `bedrock_runtime.invoke_model`: an addressed
call whose `ClientError` text mentions "inference-profile" is retried
once with the plain model id (that second outcome is final); any other
failure propagates unchanged.  `oracle n` is the outcome of the `n`-th
transport call of the current webhook invocation. -/
def transportPhase (cfg : Config) (oracle : Nat → Except PyErr String)
    (k : Nat) (model_id : String) : Except PyErr String × List String × Nat :=
  match resolve_address cfg model_id with
  | some arn =>
    match oracle k with
    | .ok body => (.ok body, [arn], k + 1)
    | .error e =>
      match e with
      | .clientError msg =>
        if strContainsSub msg "inference-profile" then
          (oracle (k + 1), [arn, model_id], k + 2)
        else (.error (PyErr.clientError msg), [arn], k + 1)
      | _ => (.error e, [arn], k + 1)
  | none => (oracle k, [model_id], k + 1)

/-- `_invoke_bedrock_model` (the prompt reaches the transport inside the
request body; the oracle abstracts the transport, so the prompt parameter
is kept only for shape). -/
def invoke_bedrock_model (cfg : Config) (oracle : Nat → Except PyErr String)
    (k : Nat) (_prompt : String) (model_id : String) : InvokeOut :=
  let phase := transportPhase cfg oracle k model_id
  ⟨invokeFinish phase.1, phase.2.1, phase.2.2⟩

/-! ### Prompt construction (`_create_analysis_prompt`,
`_sanitize_for_prompt`); rendering helpers model `json.dumps(indent=2)`
and f-string interpolation.  No claim inspects prompt text, so rendering
approximations (ASCII-only word characters, float lexemes reused as
reprs) are harmless. -/

/-- Characters kept by the sanitizer's regex `[^\w\s\-\.\@\:\/]` →
removed; i.e. keep word characters, whitespace and `-.@:/` (ASCII
approximation of Python's unicode-aware `\w`/`\s`). -/
def sanitizeKeep (c : Char) : Bool :=
  c.isAlphanum || c == '_' || isPySpace c ||
    c == '-' || c == '.' || c == '@' || c == ':' || c == '/'

mutual

/-- `_sanitize_for_prompt` with the default `max_length=1000`: filter
strings then truncate; recurse through dicts (values only) and lists;
other values unchanged. -/
def sanitize_for_prompt : JVal → JVal
  | .str s => .str (String.mk ((s.toList.filter sanitizeKeep).take 1000))
  | .obj fs => .obj (sanitizeFields fs)
  | .arr xs => .arr (sanitizeElems xs)
  | .null => .null
  | .bool b => .bool b
  | .num n => .num n
  | .fnum lex => .fnum lex

/-- Sanitize every element of a list. -/
def sanitizeElems : List JVal → List JVal
  | [] => []
  | x :: xs => sanitize_for_prompt x :: sanitizeElems xs

/-- Sanitize every value of a dict (keys untouched, as in the source). -/
def sanitizeFields : List (String × JVal) → List (String × JVal)
  | [] => []
  | (k, v) :: fs => (k, sanitize_for_prompt v) :: sanitizeFields fs

end

/-- Lowercase hexadecimal digit. -/
def hexDigitChar (n : Nat) : Char :=
  if n < 10 then Char.ofNat (48 + n) else Char.ofNat (97 + (n - 10))

/-- A `\uXXXX` escape (code points above 0xFFFF would use surrogate
pairs in Python; approximated by one escape of the low 16 bits). -/
def uEscape (n : Nat) : List Char :=
  ['\\', 'u', hexDigitChar (n / 4096 % 16), hexDigitChar (n / 256 % 16),
   hexDigitChar (n / 16 % 16), hexDigitChar (n % 16)]

/-- JSON string escaping with `ensure_ascii=True` as in `json.dumps`. -/
def escapeJsonChar (c : Char) : List Char :=
  if c == '"' then ['\\', '"']
  else if c == '\\' then ['\\', '\\']
  else if c == '\n' then ['\\', 'n']
  else if c == '\t' then ['\\', 't']
  else if c == '\r' then ['\\', 'r']
  else if c == '\x08' then ['\\', 'b']
  else if c == '\x0c' then ['\\', 'f']
  else if c.toNat < 32 || c.toNat > 126 then uEscape c.toNat
  else [c]

/-- A quoted, escaped JSON string literal. -/
def quoteJson (s : String) : String :=
  String.mk ('"' :: (s.toList.map escapeJsonChar).flatten ++ ['"'])

/-- `n` spaces. -/
def spacesStr (n : Nat) : String := String.mk (List.replicate n ' ')

mutual

/-- `json.dumps(v, indent=2)` at indentation level `ind`. -/
def dumpsVal : JVal → Nat → String
  | .null, _ => "null"
  | .bool true, _ => "true"
  | .bool false, _ => "false"
  | .num n, _ => toString n
  | .fnum lex, _ => lex
  | .str s, _ => quoteJson s
  | .arr [], _ => "[]"
  | .arr (x :: xs), ind =>
    "[\n" ++ dumpsElems (x :: xs) (ind + 2) ++ "\n" ++ spacesStr ind ++ "]"
  | .obj [], _ => "\x7b\x7d"
  | .obj (f :: fs), ind =>
    "\x7b\n" ++ dumpsFields (f :: fs) (ind + 2) ++ "\n" ++ spacesStr ind ++ "\x7d"

/-- Dump array elements, one per line. -/
def dumpsElems : List JVal → Nat → String
  | [], _ => ""
  | [x], ind => spacesStr ind ++ dumpsVal x ind
  | x :: y :: xs, ind =>
    spacesStr ind ++ dumpsVal x ind ++ ",\n" ++ dumpsElems (y :: xs) ind

/-- Dump object members, one per line. -/
def dumpsFields : List (String × JVal) → Nat → String
  | [], _ => ""
  | [(k, v)], ind => spacesStr ind ++ quoteJson k ++ ": " ++ dumpsVal v ind
  | (k, v) :: g :: fs, ind =>
    spacesStr ind ++ quoteJson k ++ ": " ++ dumpsVal v ind ++ ",\n" ++
      dumpsFields (g :: fs) ind

end

/-- An ASCII apostrophe (kept out of literals). -/
def aposStr : String := String.mk [Char.ofNat 39]

mutual

/-- Python `repr` of a loaded JSON value (approximate: string contents
are not re-escaped), used by f-string interpolation of non-strings. -/
def pyRepr : JVal → String
  | .null => "None"
  | .bool true => "True"
  | .bool false => "False"
  | .num n => toString n
  | .fnum lex => lex
  | .str s => aposStr ++ s ++ aposStr
  | .arr xs => "[" ++ String.intercalate ", " (pyReprElems xs) ++ "]"
  | .obj fs => "\x7b" ++ String.intercalate ", " (pyReprFields fs) ++ "\x7d"

/-- Reprs of array elements. -/
def pyReprElems : List JVal → List String
  | [] => []
  | x :: xs => pyRepr x :: pyReprElems xs

/-- Reprs of object members. -/
def pyReprFields : List (String × JVal) → List String
  | [] => []
  | (k, v) :: fs => (aposStr ++ k ++ aposStr ++ ": " ++ pyRepr v) :: pyReprFields fs

end

/-- Python `str()` of a value, as f-string interpolation renders it. -/
def pyStrOf (v : JVal) : String :=
  match v with
  | .str s => s
  | _ => pyRepr v

/-- `_create_analysis_prompt`.  Calling `.get` on a non-dict payload
raises `AttributeError`; the orchestrator's broad `except` later absorbs
it. -/
def create_analysis_prompt (webhook_data : JVal) : Except PyErr String :=
  match webhook_data with
  | .obj fs =>
    let alert_type := dictGetD fs "alertType" (.str "Unknown")
    let alert_data := dictGetD fs "alertData" (.obj [])
    let sanitized_alert_data := sanitize_for_prompt alert_data
    .ok ("\nYou are a network infrastructure expert analyzing Cisco Meraki webhook alerts. \n\nAnalyze this alert and respond in JSON format:\n\nAlert Details:\n- Alert Type: "
      ++ pyStrOf alert_type
      ++ "\n- Organization: "
      ++ pyStrOf (dictGetD fs "organizationName" (.str "Unknown"))
      ++ "\n- Network: "
      ++ pyStrOf (dictGetD fs "networkName" (.str "Unknown"))
      ++ "\n- Alert Data: "
      ++ dumpsVal sanitized_alert_data 0
      ++ "\n\nRespond with ONLY a JSON object in this exact format:\n\x7b\n    \"severity\": \"CRITICAL|HIGH|MEDIUM|LOW|INFO\",\n    \"category\": \"Security|Connectivity|Performance|Configuration|Hardware|Informational\",\n    \"summary\": \"Clear description of what happened\",\n    \"impact\": \"Potential impact on network operations\",\n    \"recommendations\": [\"Action 1\", \"Action 2\", \"Action 3\"],\n    \"requires_immediate_action\": true/false,\n    \"estimated_resolution_time\": \"Time estimate\"\n\x7d\n")
  | _ => .error (.attributeError "value has no attribute get")

/-! ### The fallback orchestrator (`_analyze_alert_with_bedrock`) -/

/-- Result of `_analyze_alert_with_bedrock`, instrumented with the list
of model ids for which `_invoke_bedrock_model` was entered, in order. -/
structure AnalyzeOut where
  result : Except PyErr JVal
  attempts : List String

/-- The fallback loop inside the `except` handler: walk the fallback
list, skip entries equal to the primary id, invoke each other candidate,
return the first success; when the list is exhausted, return the fallback
analysis built from the text of the error `e` caught by the outer
handler.  When prompt construction itself raised, the Python local
`prompt` is unbound, so each candidate's `_invoke_bedrock_model(prompt,…)`
raises `UnboundLocalError` before any transport call and the inner
`except Exception` swallows it — modelled by skipping the invocation. -/
def fallbackLoop (cfg : Config) (oracle : Nat → Except PyErr String)
    (eprompt : Except PyErr String) (firstErr : PyErr) :
    List String → Nat → JVal × List String
  | [], _ => (create_fallback_analysis firstErr.text, [])
  | m :: rest, k =>
    if m = cfg.bedrock_model_id then
      fallbackLoop cfg oracle eprompt firstErr rest k
    else
      match eprompt with
      | .error _ => fallbackLoop cfg oracle eprompt firstErr rest k
      | .ok prompt =>
        let out := invoke_bedrock_model cfg oracle k prompt m
        match out.result with
        | .ok a => (a, [m])
        | .error _ =>
          let lp := fallbackLoop cfg oracle eprompt firstErr rest out.next
          (lp.1, m :: lp.2)

/-- `_analyze_alert_with_bedrock` given the outcome of prompt
construction: try the primary model; on any failure run the fallback
loop; the handler itself cannot raise, so the overall result is always
`ok`. -/
def analyzeWith (cfg : Config) (oracle : Nat → Except PyErr String)
    (eprompt : Except PyErr String) : AnalyzeOut :=
  match eprompt with
  | .ok prompt =>
    let out := invoke_bedrock_model cfg oracle 0 prompt cfg.bedrock_model_id
    match out.result with
    | .ok a => ⟨.ok a, [cfg.bedrock_model_id]⟩
    | .error e =>
      let lp := fallbackLoop cfg oracle (.ok prompt) e cfg.fallback_models out.next
      ⟨.ok lp.1, cfg.bedrock_model_id :: lp.2⟩
  | .error e =>
    let lp := fallbackLoop cfg oracle (.error e) e cfg.fallback_models 0
    ⟨.ok lp.1, lp.2⟩

/-- `_analyze_alert_with_bedrock`. -/
def analyze_alert_with_bedrock (cfg : Config)
    (oracle : Nat → Except PyErr String) (webhook_data : JVal) :
    Except PyErr JVal :=
  (analyzeWith cfg oracle (create_analysis_prompt webhook_data)).result

/-! ### Webhook processing (`process_webhook` and helpers) -/

/-- `_parse_webhook_payload`. -/
def parse_webhook_payload (event : JVal) : Except PyErr JVal :=
  match pyContains event "body" with
  | .error e => .error e
  | .ok true =>
    match pyGetItem event "body" with
    | .error e => .error e
    | .ok (.str s) =>
      match json_loads s with
      | .ok v => .ok v
      | .error e =>
        .error (.valueError ("Invalid JSON in request body: " ++ e.text))
    | .ok body => .ok body
  | .ok false => .ok event

/-- `_validate_webhook_data`: `all(field in webhook_data for field in
['alertType'])`. -/
def validate_webhook_data (webhook_data : JVal) : Except PyErr Bool :=
  pyContains webhook_data "alertType"

/-- `_extract_alert_info`. -/
def extract_alert_info (webhook_data : JVal) :
    Except PyErr (List (String × JVal)) :=
  match webhook_data with
  | .obj fs => .ok
      [("alert_type", dictGetD fs "alertType" (.str "Unknown")),
       ("organization_name", dictGetD fs "organizationName" (.str "Unknown")),
       ("organization_url", dictGetD fs "organizationUrl" (.str "")),
       ("network_name", dictGetD fs "networkName" (.str "Unknown")),
       ("network_url", dictGetD fs "networkUrl" (.str "")),
       ("alert_data", dictGetD fs "alertData" (.obj []))]
  | _ => .error (.attributeError "value has no attribute get")

/-- One `try/except Exception: logger.error(...)` wrapper inside
`_send_notifications`: the channel outcome is logged and swallowed. -/
def swallowNotify (r : Except PyErr Unit) : Except PyErr Unit :=
  match r with
  | .ok _ => .ok ()
  | .error _ => .ok ()

/-- `_send_notifications`: each channel call is individually wrapped, so
no notification failure escapes.  The channel outcomes are external
(HTTP/SES) and passed in. -/
def send_notifications (chatResult emailResult : Except PyErr Unit) :
    Except PyErr Unit :=
  match swallowNotify chatResult with
  | .ok _ => swallowNotify emailResult
  | .error e => .error e

/-- An API-Gateway response.  The body dict is kept unserialized:
`json.dumps` is total on values reachable here, and the
`datetime.utcnow().isoformat()` timestamp is the external `now`. -/
structure HttpResponse where
  statusCode : Nat
  headers : List (String × String)
  body : List (String × JVal)

/-- `_create_success_response`.  The source indexes
`alert_info['alert_type']` etc. directly; dicts built by
`_extract_alert_info` always carry these keys, so the defaults here are
unreachable. -/
def create_success_response (alert_info : List (String × JVal))
    (analysis_result : JVal) (now : String) : HttpResponse :=
  { statusCode := 200,
    headers :=
      [("Content-Type", "application/json"),
       ("Access-Control-Allow-Origin", "*"),
       ("Access-Control-Allow-Headers", "Content-Type"),
       ("Access-Control-Allow-Methods", "POST, OPTIONS")],
    body :=
      [("message", .str "Webhook processed successfully"),
       ("alert_type", dictGetD alert_info "alert_type" JVal.null),
       ("organization", dictGetD alert_info "organization_name" JVal.null),
       ("network", dictGetD alert_info "network_name" JVal.null),
       ("analysis", analysis_result),
       ("timestamp", .str now)] }

/-- `_create_error_response`. -/
def create_error_response (status_code : Nat) (message : String)
    (now : String) : HttpResponse :=
  { statusCode := status_code,
    headers :=
      [("Content-Type", "application/json"),
       ("Access-Control-Allow-Origin", "*")],
    body :=
      [("error", .str "Request failed"),
       ("message", .str message),
       ("timestamp", .str now)] }

/-- The body of `process_webhook`'s `try` block. -/
def processTry (cfg : Config) (oracle : Nat → Except PyErr String)
    (chatResult emailResult : Except PyErr Unit) (now : String)
    (event : JVal) : Except PyErr HttpResponse :=
  match parse_webhook_payload event with
  | .error e => .error e
  | .ok webhook_data =>
    match validate_webhook_data webhook_data with
    | .error e => .error e
    | .ok false => .ok (create_error_response 400 "Invalid webhook data" now)
    | .ok true =>
      match extract_alert_info webhook_data with
      | .error e => .error e
      | .ok alert_info =>
        match analyze_alert_with_bedrock cfg oracle webhook_data with
        | .error e => .error e
        | .ok analysis_result =>
          match send_notifications chatResult emailResult with
          | .error e => .error e
          | .ok _ => .ok (create_success_response alert_info analysis_result now)

/-- `process_webhook`: the `try` body with its two handlers.
`json.JSONDecodeError` is a subclass of `ValueError`, so both map to the
400 branch; any other exception maps to the 500 branch. -/
def process_webhook (cfg : Config) (oracle : Nat → Except PyErr String)
    (chatResult emailResult : Except PyErr Unit) (now : String)
    (event : JVal) : HttpResponse :=
  match processTry cfg oracle chatResult emailResult now event with
  | .ok resp => resp
  | .error (.valueError msg) => create_error_response 400 msg now
  | .error (.jsonDecodeError msg) => create_error_response 400 msg now
  | .error _ => create_error_response 500 "Internal server error" now

/-! ### Concrete fixtures used by witnesses and counterexamples -/

/-- A configuration with primary model "A" and fallback list
`["A", "B", "C"]` (the primary appears again in the list), with no
inference profiles configured. -/
def cfgABC : Config := ⟨"A", ["A", "B", "C"], []⟩

/-- A configuration whose fallback list duplicates the non-primary
model "B". -/
def cfgDupB : Config := ⟨"A", ["B", "B"], []⟩

/-- A configuration with a single model addressed by an inference
profile. -/
def cfgProfiled : Config := ⟨"modelA", [], [("modelA", some "arn:profileA")]⟩

/-- A transport that always fails. -/
def oracleDown : Nat → Except PyErr String :=
  fun _ => Except.error (PyErr.clientError "service down")

/-- A Bedrock response body whose first content block's text is the empty
JSON object. -/
def bodyEmptyObj : String := "\x7b\"content\":[\x7b\"text\":\"\x7b\x7d\"\x7d]\x7d"

/-- A transport whose first call fails and whose later calls succeed
with `bodyEmptyObj`. -/
def oracleFirstFails : Nat → Except PyErr String :=
  fun n => if n == 0 then Except.error (PyErr.clientError "boom")
           else Except.ok bodyEmptyObj

/-- A transport failing on every call, with distinct messages for the
first and later calls. -/
def oracleTwoMsgs : Nat → Except PyErr String :=
  fun n => Except.error (PyErr.clientError
    (if n == 0 then "primary boom" else "fallback boom"))

/-- A transport whose first call fails with a routing-classified error
and whose second call fails differently. -/
def oracleRouteThenFail : Nat → Except PyErr String :=
  fun n => if n == 0 then
      Except.error (PyErr.clientError "could not reach inference-profile target")
    else Except.error (PyErr.valueError "second failure")

/-- A minimal valid webhook payload. -/
def wdSimple : JVal := JVal.obj [("alertType", JVal.str "settings_changed")]

/-! ### Claim theorems -/

/-- Claim C1: for every webhook payload, `_analyze_alert_with_bedrock`
returns an Assessment value and never raises — including when prompt
construction fails, when the primary model invocation fails, and when
every fallback model invocation fails. -/
theorem analyze_never_raises (cfg : Config)
    (oracle : Nat → Except PyErr String) (webhook_data : JVal) :
    ∃ a, analyze_alert_with_bedrock cfg oracle webhook_data = Except.ok a := by
  unfold analyze_alert_with_bedrock analyzeWith
  split
  next prompt hp =>
    cases h : (invoke_bedrock_model cfg oracle 0 prompt cfg.bedrock_model_id).result with
    | ok a => exact ⟨a, by simp [h]⟩
    | error e =>
      refine ⟨(fallbackLoop cfg oracle (Except.ok prompt) e cfg.fallback_models
        (invoke_bedrock_model cfg oracle 0 prompt cfg.bedrock_model_id).next).1, ?_⟩
      simp [h]
  next e hp => exact ⟨_, rfl⟩

/-- Claim C2: for a model with a configured inference-profile address,
a routing-classified failure of the addressed call triggers exactly one
retry with the unqualified model id, whose outcome is final; a
non-routing failure propagates unchanged with no retry. -/
theorem invoke_profile_retry_exactly_once (cfg : Config)
    (oracle : Nat → Except PyErr String) (k : Nat)
    (prompt model_id arn : String) (e : PyErr)
    (harn : resolve_address cfg model_id = some arn)
    (hfail : oracle k = Except.error e) :
    (routingClassified e = true →
       invoke_bedrock_model cfg oracle k prompt model_id =
         ⟨invokeFinish (oracle (k + 1)), [arn, model_id], k + 2⟩)
    ∧ (routingClassified e = false →
       invoke_bedrock_model cfg oracle k prompt model_id =
         ⟨Except.error e, [arn], k + 1⟩) := by
  unfold invoke_bedrock_model transportPhase
  rw [harn, hfail]
  cases e with
  | clientError msg =>
    constructor
    · intro hr
      simp only [routingClassified] at hr
      simp [hr, invokeFinish]
    · intro hr
      simp only [routingClassified] at hr
      simp [hr, invokeFinish]
  | valueError m =>
    exact ⟨fun hr => by simp [routingClassified] at hr, fun _ => by simp [invokeFinish]⟩
  | typeError m =>
    exact ⟨fun hr => by simp [routingClassified] at hr, fun _ => by simp [invokeFinish]⟩
  | keyError m =>
    exact ⟨fun hr => by simp [routingClassified] at hr, fun _ => by simp [invokeFinish]⟩
  | indexError m =>
    exact ⟨fun hr => by simp [routingClassified] at hr, fun _ => by simp [invokeFinish]⟩
  | attributeError m =>
    exact ⟨fun hr => by simp [routingClassified] at hr, fun _ => by simp [invokeFinish]⟩
  | jsonDecodeError m =>
    exact ⟨fun hr => by simp [routingClassified] at hr, fun _ => by simp [invokeFinish]⟩

/-- Claim C2 witness: with the profiled configuration and a transport
whose addressed call fails with a routing-classified error and whose
direct call fails differently, the engine makes exactly the two calls
and returns the second failure. -/
theorem invoke_profile_retry_witness :
    invoke_bedrock_model cfgProfiled oracleRouteThenFail 0 "p" "modelA" =
      ⟨Except.error (PyErr.valueError "second failure"),
       ["arn:profileA", "modelA"], 2⟩ := by
  have h := (invoke_profile_retry_exactly_once cfgProfiled oracleRouteThenFail 0
    "p" "modelA" "arn:profileA"
    (PyErr.clientError "could not reach inference-profile target")
    rfl rfl).1 (by decide)
  rw [h]
  rfl

/-- The raw text of claim C5: a fenced JSON object with a lowercase
severity. -/
def c5Input : String := "```json\n\x7b\"severity\":\"low\"\x7d\n```"

/-- The fields the normalizer actually produces for `c5Input`. -/
def c5Fields : List (String × JVal) :=
  [("severity", .str "low"),
   ("category", .str "Unknown"),
   ("summary", .str "Alert received but analysis incomplete"),
   ("impact", .str "Unable to determine impact"),
   ("recommendations", .arr [.str "Manual review required",
                             .str "Check Meraki dashboard"]),
   ("requires_immediate_action", .bool true),
   ("estimated_resolution_time", .str "Unknown")]

/-- Claim C5 counterexample: on the claimed input the normalizer leaves
severity as "low" — it never writes the uppercased value back — so the
produced severity is not "LOW" and lies outside the enum as stored. -/
theorem severity_not_uppercased_cex :
    parse_bedrock_response c5Input = Except.ok (JVal.obj c5Fields)
    ∧ lookupKey c5Fields "severity" = some (JVal.str "low")
    ∧ ("low" : String) ≠ "LOW"
    ∧ VALID_SEVERITIES.contains "low" = false := by
  exact ⟨rfl, rfl, by decide, by decide⟩

/-- Claim C5 amended: the normalizer uppercases severity only for the
enum membership test (forcing MEDIUM exactly when the uppercased value is
outside the enum) and stores the original casing: on the given raw text
it produces severity "low" with every other field at its documented
default. -/
theorem severity_lowercase_preserved :
    parse_bedrock_response c5Input = Except.ok (JVal.obj c5Fields)
    ∧ VALID_SEVERITIES.contains (pyUpper "low") = true := by
  exact ⟨rfl, by decide⟩

/-- Slicing off an exact leading and trailing block: `s[a:-b]` keeps
exactly the middle when the text decomposes as `a ++ mid ++ suf`. -/
theorem pySliceOuter_exact (t : String) (a mid suf : List Char)
    (h : t.toList = a ++ (mid ++ suf)) :
    pySliceOuter t a.length suf.length = String.mk mid := by
  unfold pySliceOuter
  rw [h]
  have hlen : (a ++ (mid ++ suf)).length - suf.length - a.length = mid.length := by
    simp [List.length_append]
    omega
  rw [List.drop_left, hlen, List.take_left]

/-- A string starts with any exact prefix of its character list. -/
theorem pyStartsWith_of_toList (t p : String) (r : List Char)
    (h : t.toList = p.toList ++ r) : pyStartsWith t p = true := by
  unfold pyStartsWith
  rw [h]
  exact List.isPrefixOf_iff_prefix.mpr (List.prefix_append _ _)

/-- Claim C10: fence stripping looks only at the leading marker — when
the stripped text starts with "```json" (resp. "```"), the first 7
(resp. 3) characters and the last 3 characters are removed
unconditionally before JSON parsing, whether or not a closing fence is
present. -/
theorem fence_strip_discards_tail (s : String) :
    (∀ mid suf : List Char,
       (pyStrip s).toList = "```json".toList ++ (mid ++ suf) →
       suf.length = 3 →
       stripCodeFences s = pyStrip (String.mk mid))
    ∧ (∀ mid suf : List Char,
       (pyStrip s).toList = "```".toList ++ (mid ++ suf) →
       suf.length = 3 →
       pyStartsWith (pyStrip s) "```json" = false →
       stripCodeFences s = pyStrip (String.mk mid)) := by
  constructor
  · intro mid suf h h3
    unfold stripCodeFences
    dsimp only
    rw [pyStartsWith_of_toList _ _ _ h]
    have h2 : pySliceOuter (pyStrip s) 7 3 = String.mk mid := by
      have := pySliceOuter_exact (pyStrip s) "```json".toList mid suf h
      rw [h3] at this
      exact this
    simp [h2]
  · intro mid suf h h3 hns
    unfold stripCodeFences
    dsimp only
    rw [hns, pyStartsWith_of_toList _ _ _ h]
    have h2 : pySliceOuter (pyStrip s) 3 3 = String.mk mid := by
      have := pySliceOuter_exact (pyStrip s) "```".toList mid suf h
      rw [h3] at this
      exact this
    simp [h2]

/-- Claim C10 witness: a leading "```json" fence with no closing fence
still loses its final three characters ("DEF" here). -/
theorem fence_strip_discards_tail_witness :
    stripCodeFences "```jsonABCDEF" = "ABC" := by
  have h := (fence_strip_discards_tail "```jsonABCDEF").1 "ABC".toList
    "DEF".toList (by decide) (by decide)
  exact h.trans rfl

/-- Is a JSON value an object? -/
def JVal.isObj : JVal → Bool
  | .obj _ => true
  | _ => false

/-- On any non-object value, the defaulting loop raises `TypeError` at
its first step (membership test, item read, or item assignment). -/
theorem validate_nonobj (v : JVal) (h : JVal.isObj v = false) :
    ∃ m, validate_analysis_response v = Except.error (PyErr.typeError m) := by
  cases v with
  | obj fs => simp [JVal.isObj] at h
  | null => exact ⟨_, rfl⟩
  | bool b => cases b <;> exact ⟨_, rfl⟩
  | num n => exact ⟨_, rfl⟩
  | fnum l => exact ⟨_, rfl⟩
  | str s =>
    cases hc : strContainsSub s "severity" with
    | true =>
      refine ⟨"value does not support string indexing", ?_⟩
      simp [validate_analysis_response, analysisDefaults, applyDefault,
        pyContains, pyGetItem, pySetItem, hc, Except.instMonad, Except.bind,
        Except.pure, Bind.bind, Pure.pure]
    | false =>
      refine ⟨"value does not support item assignment", ?_⟩
      simp [validate_analysis_response, analysisDefaults, applyDefault,
        pyContains, pyGetItem, pySetItem, hc, Except.instMonad, Except.bind,
        Except.pure, Bind.bind, Pure.pure]
  | arr xs =>
    cases hc : xs.contains (JVal.str "severity") with
    | true =>
      refine ⟨"value does not support string indexing", ?_⟩
      simp [validate_analysis_response, analysisDefaults, applyDefault,
        pyContains, pyGetItem, pySetItem, hc, Except.instMonad, Except.bind,
        Except.pure, Bind.bind, Pure.pure]
    | false =>
      refine ⟨"value does not support item assignment", ?_⟩
      simp [validate_analysis_response, analysisDefaults, applyDefault,
        pyContains, pyGetItem, pySetItem, hc, Except.instMonad, Except.bind,
        Except.pure, Bind.bind, Pure.pure]

/-- Claim C4 counterexample: the raw text "42" parses as JSON (a
number, not an object), and the normalizer then raises a `TypeError`
instead of returning a fallback Assessment — so it does not hold that
the normalizer never raises, nor that every non-object input yields the
fallback. -/
theorem normalizer_nonobject_raises_cex :
    parse_bedrock_response "42" =
      Except.error (PyErr.typeError "argument is not a container") :=
  rfl

/-- Claim C4 amended: when the (fence-stripped) text fails JSON parsing,
the normalizer returns the fallback Assessment noting "JSON parsing
failed" and never propagates the parse error; but when the text parses
to a non-object JSON value, a `TypeError` propagates out of the
normalizer. -/
theorem normalizer_parse_error_handling (raw : String) :
    (∀ e, json_loads (stripCodeFences raw) = Except.error e →
       parse_bedrock_response raw =
         Except.ok (create_fallback_analysis "JSON parsing failed"))
    ∧ (∀ v, json_loads (stripCodeFences raw) = Except.ok v →
       JVal.isObj v = false →
       ∃ m, parse_bedrock_response raw = Except.error (PyErr.typeError m)) := by
  constructor
  · intro e he
    unfold parse_bedrock_response
    rw [he]
  · intro v hv hobj
    unfold parse_bedrock_response
    rw [hv]
    exact validate_nonobj v hobj

/-- Claim C4 witness: "not json" fails to parse and yields the fallback
Assessment. -/
theorem normalizer_parse_error_witness :
    parse_bedrock_response "not json" =
      Except.ok (create_fallback_analysis "JSON parsing failed") :=
  (normalizer_parse_error_handling "not json").1
    (PyErr.jsonDecodeError "Expecting value") rfl

/-- A complete, schema-valid response whose `requires_immediate_action`
is `false`. -/
def c6Input : List (String × JVal) :=
  [("severity", .str "HIGH"), ("category", .str "Security"),
   ("summary", .str "intrusion attempt"), ("impact", .str "possible breach"),
   ("recommendations", .arr [.str "isolate the device"]),
   ("requires_immediate_action", .bool false),
   ("estimated_resolution_time", .str "2 hours")]

/-- What the normalizer returns for `c6Input`: the flag flipped to
`true`. -/
def c6Output : List (String × JVal) :=
  [("severity", .str "HIGH"), ("category", .str "Security"),
   ("summary", .str "intrusion attempt"), ("impact", .str "possible breach"),
   ("recommendations", .arr [.str "isolate the device"]),
   ("requires_immediate_action", .bool true),
   ("estimated_resolution_time", .str "2 hours")]

/-- Claim C6 counterexample: a JSON object with all required fields and
`requires_immediate_action = false` does not pass through unchanged —
the falsy-field check replaces `false` with the default `true`. -/
theorem roundtrip_false_flag_cex :
    validate_analysis_response (JVal.obj c6Input) =
      Except.ok (JVal.obj c6Output)
    ∧ lookupKey c6Input "requires_immediate_action" = some (JVal.bool false)
    ∧ lookupKey c6Output "requires_immediate_action" = some (JVal.bool true) :=
  ⟨rfl, rfl, rfl⟩

/-- Claim C6 amended: a JSON object with all required fields truthy and
valid — severity in the uppercase enum and `requires_immediate_action`
specifically `true` — passes through the normalizer entirely unchanged
(the stored severity is not rewritten, so case-normalization is the
identity here); a `false` flag would instead be replaced by the default
`true`. -/
theorem roundtrip_preserved_when_true (sev cat sum imp ert : String)
    (recs : List JVal) (hsev : sev ∈ VALID_SEVERITIES) (hcat : cat ≠ "")
    (hsum : sum ≠ "") (himp : imp ≠ "") (hert : ert ≠ "") (hrecs : recs ≠ []) :
    validate_analysis_response (JVal.obj
      [("severity", JVal.str sev), ("category", JVal.str cat),
       ("summary", JVal.str sum), ("impact", JVal.str imp),
       ("recommendations", JVal.arr recs),
       ("requires_immediate_action", JVal.bool true),
       ("estimated_resolution_time", JVal.str ert)]) =
    Except.ok (JVal.obj
      [("severity", JVal.str sev), ("category", JVal.str cat),
       ("summary", JVal.str sum), ("impact", JVal.str imp),
       ("recommendations", JVal.arr recs),
       ("requires_immediate_action", JVal.bool true),
       ("estimated_resolution_time", JVal.str ert)]) := by
  rcases recs with _ | ⟨r, rs⟩
  · exact absurd rfl hrecs
  simp only [VALID_SEVERITIES, List.mem_cons, List.not_mem_nil, or_false] at hsev
  rcases hsev with rfl | rfl | rfl | rfl | rfl <;>
    simp +decide [validate_analysis_response, analysisDefaults, applyDefault,
      pyContains, pyGetItem, pySetItem, lookupKey, truthy, hcat, hsum, himp,
      hert, Except.instMonad, Except.bind, Except.pure, Bind.bind, Pure.pure]

/-- Claim C6 witness: a concrete valid response with the flag `true`
passes through unchanged. -/
theorem roundtrip_preserved_witness :
    validate_analysis_response (JVal.obj
      [("severity", JVal.str "LOW"), ("category", JVal.str "Connectivity"),
       ("summary", JVal.str "link down"), ("impact", JVal.str "minor"),
       ("recommendations", JVal.arr [JVal.str "check cable"]),
       ("requires_immediate_action", JVal.bool true),
       ("estimated_resolution_time", JVal.str "1 hour")]) =
    Except.ok (JVal.obj
      [("severity", JVal.str "LOW"), ("category", JVal.str "Connectivity"),
       ("summary", JVal.str "link down"), ("impact", JVal.str "minor"),
       ("recommendations", JVal.arr [JVal.str "check cable"]),
       ("requires_immediate_action", JVal.bool true),
       ("estimated_resolution_time", JVal.str "1 hour")]) :=
  roundtrip_preserved_when_true "LOW" "Connectivity" "link down" "minor"
    "1 hour" [JVal.str "check cable"] (by decide) (by decide) (by decide)
    (by decide) (by decide) (by simp)

/-- When every transport call fails, every engine invocation fails. -/
theorem invoke_error_of_oracle_error (cfg : Config)
    (oracle : Nat → Except PyErr String)
    (hall : ∀ n, ∃ e, oracle n = Except.error e)
    (k : Nat) (prompt m : String) :
    ∃ e, (invoke_bedrock_model cfg oracle k prompt m).result =
      Except.error e := by
  unfold invoke_bedrock_model transportPhase
  cases hr : resolve_address cfg m with
  | none =>
    obtain ⟨e, he⟩ := hall k
    exact ⟨e, by simp [he, invokeFinish]⟩
  | some arn =>
    obtain ⟨e, he⟩ := hall k
    cases e with
    | clientError msg =>
      cases hc : strContainsSub msg "inference-profile" with
      | true =>
        obtain ⟨e2, he2⟩ := hall (k + 1)
        exact ⟨e2, by simp [he, hc, he2, invokeFinish]⟩
      | false =>
        exact ⟨PyErr.clientError msg, by simp [he, hc, invokeFinish]⟩
    | valueError msg => exact ⟨PyErr.valueError msg, by simp [he, invokeFinish]⟩
    | typeError msg => exact ⟨PyErr.typeError msg, by simp [he, invokeFinish]⟩
    | keyError msg => exact ⟨PyErr.keyError msg, by simp [he, invokeFinish]⟩
    | indexError msg => exact ⟨PyErr.indexError msg, by simp [he, invokeFinish]⟩
    | attributeError msg => exact ⟨PyErr.attributeError msg, by simp [he, invokeFinish]⟩
    | jsonDecodeError msg => exact ⟨PyErr.jsonDecodeError msg, by simp [he, invokeFinish]⟩

/-- When every transport call fails, the fallback loop exhausts any list
and returns the fallback analysis built from the first error's text. -/
theorem fallbackLoop_all_fail (cfg : Config)
    (oracle : Nat → Except PyErr String) (prompt : String) (fe : PyErr)
    (hall : ∀ n, ∃ e, oracle n = Except.error e) :
    ∀ ms k, (fallbackLoop cfg oracle (Except.ok prompt) fe ms k).1 =
      create_fallback_analysis fe.text := by
  intro ms
  induction ms with
  | nil => intro k; rfl
  | cons m rest ih =>
    intro k
    unfold fallbackLoop
    by_cases hm : m = cfg.bedrock_model_id
    · simp [hm, ih]
    · obtain ⟨e, he⟩ := invoke_error_of_oracle_error cfg oracle hall k prompt m
      simp [hm, he, ih]

/-- Claim C3 counterexample: with primary model "A" failing with
"primary boom" and the single fallback "B" then failing with "fallback
boom", the most recent failure in the cascade is "fallback boom", yet
the fallback Assessment's summary embeds "primary boom" and does not
mention the last error at all. -/
theorem fallback_summary_last_error_cex :
    (analyzeWith ⟨"A", ["B"], []⟩ oracleTwoMsgs (Except.ok "p")).result =
      Except.ok (create_fallback_analysis "primary boom")
    ∧ lookupKey [("severity", JVal.str "HIGH"),
        ("category", JVal.str "System Error"),
        ("summary", JVal.str "Alert received but analysis failed: primary boom"),
        ("impact", JVal.str "Unable to determine impact - manual review required"),
        ("recommendations", JVal.arr [JVal.str "Manual review required",
          JVal.str "Check Meraki dashboard for details",
          JVal.str "Contact system administrator if issues persist"]),
        ("requires_immediate_action", JVal.bool true),
        ("estimated_resolution_time", JVal.str "Unknown")] "summary" =
      some (JVal.str "Alert received but analysis failed: primary boom")
    ∧ strContainsSub "Alert received but analysis failed: primary boom"
        "fallback boom" = false :=
  ⟨rfl, rfl, by decide⟩

/-- Claim C3 amended: when the primary attempt fails with error `e0` and
every transport call fails, `analyze` returns — without throwing — the
fallback Assessment whose summary embeds the text of `e0`, the error
from the primary attempt that the outer handler bound (not the most
recent failure of the cascade), with severity HIGH, category "System
Error", the fixed impact text, the fixed three recommendations,
`requires_immediate_action = true` and
`estimated_resolution_time = "Unknown"`. -/
theorem fallback_assessment_first_error (cfg : Config)
    (oracle : Nat → Except PyErr String) (prompt : String) (e0 : PyErr)
    (hall : ∀ n, ∃ e, oracle n = Except.error e)
    (hprimary : (invoke_bedrock_model cfg oracle 0 prompt
      cfg.bedrock_model_id).result = Except.error e0) :
    ∃ fs, (analyzeWith cfg oracle (Except.ok prompt)).result =
        Except.ok (JVal.obj fs)
      ∧ JVal.obj fs = create_fallback_analysis e0.text
      ∧ lookupKey fs "severity" = some (JVal.str "HIGH")
      ∧ lookupKey fs "category" = some (JVal.str "System Error")
      ∧ lookupKey fs "summary" =
          some (JVal.str ("Alert received but analysis failed: " ++ e0.text))
      ∧ lookupKey fs "impact" =
          some (JVal.str "Unable to determine impact - manual review required")
      ∧ lookupKey fs "recommendations" =
          some (JVal.arr [JVal.str "Manual review required",
            JVal.str "Check Meraki dashboard for details",
            JVal.str "Contact system administrator if issues persist"])
      ∧ lookupKey fs "requires_immediate_action" = some (JVal.bool true)
      ∧ lookupKey fs "estimated_resolution_time" =
          some (JVal.str "Unknown") := by
  refine ⟨[("severity", JVal.str "HIGH"),
    ("category", JVal.str "System Error"),
    ("summary", JVal.str ("Alert received but analysis failed: " ++ e0.text)),
    ("impact", JVal.str "Unable to determine impact - manual review required"),
    ("recommendations", JVal.arr [JVal.str "Manual review required",
      JVal.str "Check Meraki dashboard for details",
      JVal.str "Contact system administrator if issues persist"]),
    ("requires_immediate_action", JVal.bool true),
    ("estimated_resolution_time", JVal.str "Unknown")],
    ?_, rfl, rfl, rfl, rfl, rfl, rfl, rfl, rfl⟩
  unfold analyzeWith
  dsimp only
  rw [hprimary]
  simp [fallbackLoop_all_fail cfg oracle prompt e0 hall, create_fallback_analysis]

/-- Claim C3 witness: the amended theorem applied to the two-message
transport. -/
theorem fallback_assessment_first_error_witness :
    ∃ fs, (analyzeWith ⟨"P", ["Q"], []⟩ oracleTwoMsgs (Except.ok "p")).result =
        Except.ok (JVal.obj fs)
      ∧ lookupKey fs "summary" =
          some (JVal.str "Alert received but analysis failed: primary boom") := by
  obtain ⟨fs, h1, _, _, _, h5, _⟩ := fallback_assessment_first_error
    ⟨"P", ["Q"], []⟩ oracleTwoMsgs "p" (PyErr.clientError "primary boom")
    (fun n => ⟨_, rfl⟩) rfl
  exact ⟨fs, h1, h5⟩

/-- The fallback loop never attempts the primary model: every entry equal
to `bedrock_model_id` is skipped. -/
theorem fallbackLoop_no_primary (cfg : Config)
    (oracle : Nat → Except PyErr String) (eprompt : Except PyErr String)
    (fe : PyErr) :
    ∀ ms k, cfg.bedrock_model_id ∉
      (fallbackLoop cfg oracle eprompt fe ms k).2 := by
  intro ms
  induction ms with
  | nil => intro k; simp [fallbackLoop]
  | cons m rest ih =>
    intro k
    unfold fallbackLoop
    by_cases hm : m = cfg.bedrock_model_id
    · simpa [hm] using ih k
    · cases eprompt with
      | error e => simpa [hm] using ih k
      | ok prompt =>
        cases h : (invoke_bedrock_model cfg oracle k prompt m).result with
        | ok a =>
          simp [hm, h]
          exact fun hcontra => hm hcontra.symm
        | error e =>
          simp [hm, h]
          exact ⟨fun hcontra => hm hcontra.symm, ih _⟩

/-- Claim C7 counterexample: with fallback list `["B", "B"]` and every
call failing, the cascade invokes the already-failed non-primary model
"B" twice — duplicates of non-primary entries are not deduplicated. -/
theorem duplicate_fallback_reinvoked_cex :
    (analyzeWith cfgDupB oracleDown
        (create_analysis_prompt wdSimple)).attempts = ["A", "B", "B"]
    ∧ (["A", "B", "B"] : List String).count "B" = 2 :=
  ⟨rfl, rfl⟩

/-- Claim C7 amended: in a single cascade only the primary model is
protected from re-invocation — entries of the fallback list equal to the
primary id are skipped, so the primary is attempted at most once — while
duplicate non-primary entries are invoked once per occurrence. -/
theorem primary_invoked_at_most_once (cfg : Config)
    (oracle : Nat → Except PyErr String) (eprompt : Except PyErr String) :
    ((analyzeWith cfg oracle eprompt).attempts).count
      cfg.bedrock_model_id ≤ 1 := by
  unfold analyzeWith
  cases eprompt with
  | error e =>
    dsimp only
    rw [List.count_eq_zero_of_not_mem
      (fallbackLoop_no_primary cfg oracle (Except.error e) e
        cfg.fallback_models 0)]
    exact Nat.zero_le 1
  | ok prompt =>
    dsimp only
    cases h : (invoke_bedrock_model cfg oracle 0 prompt
        cfg.bedrock_model_id).result with
    | ok a => simp
    | error e =>
      simp only [List.count_cons_self]
      rw [List.count_eq_zero_of_not_mem
        (fallbackLoop_no_primary cfg oracle (Except.ok prompt) e
          cfg.fallback_models _)]

/-- Claim C8: with priority list `[A, B, C]`, primary A failing and B
succeeding, the cascade invokes A then B, returns B's normalized result,
and never invokes C. -/
theorem cascade_stops_at_first_success (oracle : Nat → Except PyErr String)
    (prompt : String) (e : PyErr) (aB : JVal)
    (hA : (invoke_bedrock_model cfgABC oracle 0 prompt "A").result =
      Except.error e)
    (hB : (invoke_bedrock_model cfgABC oracle 1 prompt "B").result =
      Except.ok aB) :
    (analyzeWith cfgABC oracle (Except.ok prompt)).result = Except.ok aB
    ∧ (analyzeWith cfgABC oracle (Except.ok prompt)).attempts = ["A", "B"] := by
  have hloop : fallbackLoop cfgABC oracle (Except.ok prompt) e
      cfgABC.fallback_models
      (invoke_bedrock_model cfgABC oracle 0 prompt
        cfgABC.bedrock_model_id).next = (aB, ["B"]) := by
    show fallbackLoop cfgABC oracle (Except.ok prompt) e ["A", "B", "C"] 1 =
      (aB, ["B"])
    simp only [fallbackLoop]
    rw [hB]
    simp [cfgABC]
  have hmain : analyzeWith cfgABC oracle (Except.ok prompt) =
      ⟨Except.ok aB, ["A", "B"]⟩ := by
    unfold analyzeWith
    dsimp only
    rw [show (invoke_bedrock_model cfgABC oracle 0 prompt
      cfgABC.bedrock_model_id).result = Except.error e from hA]
    dsimp only
    rw [hloop]
    rfl
  exact ⟨by rw [hmain], by rw [hmain]⟩

/-- Claim C8 witness: a transport failing once then answering with an
empty-object analysis makes the cascade return the all-defaults
Assessment after attempting exactly A then B. -/
theorem cascade_stops_at_first_success_witness :
    (analyzeWith cfgABC oracleFirstFails (Except.ok "p")).result =
      Except.ok (JVal.obj analysisDefaults)
    ∧ (analyzeWith cfgABC oracleFirstFails (Except.ok "p")).attempts =
      ["A", "B"] :=
  cascade_stops_at_first_success oracleFirstFails "p"
    (PyErr.clientError "boom") (JVal.obj analysisDefaults) rfl rfl

/-- Notification dispatch never propagates a channel failure. -/
theorem send_notifications_ok (chatResult emailResult : Except PyErr Unit) :
    send_notifications chatResult emailResult = Except.ok () := by
  cases chatResult <;> cases emailResult <;> rfl

/-- Every normal completion of the `try` body carries status 200 or
400. -/
theorem processTry_ok_status (cfg : Config)
    (oracle : Nat → Except PyErr String)
    (chatResult emailResult : Except PyErr Unit) (now : String) (event : JVal)
    (r : HttpResponse)
    (h : processTry cfg oracle chatResult emailResult now event =
      Except.ok r) :
    r.statusCode = 200 ∨ r.statusCode = 400 := by
  unfold processTry at h
  repeat' split at h
  all_goals first
    | (injection h with h2; subst h2;
       simp [create_error_response, create_success_response])
    | injection h

/-- The webhook result does not depend on the notification channel
outcomes. -/
theorem processTry_notify_indep (cfg : Config)
    (oracle : Nat → Except PyErr String) (now : String) (event : JVal)
    (c1 e1 c2 e2 : Except PyErr Unit) :
    processTry cfg oracle c1 e1 now event =
      processTry cfg oracle c2 e2 now event := by
  unfold processTry
  rw [send_notifications_ok c1 e1, send_notifications_ok c2 e2]

/-- Claim C9: `process_webhook` always returns a response with status
200, 400 or 500 and never raises; the response is independent of
notification-channel failures; a payload failing validation yields the
400 "Invalid webhook data" response; a body that fails JSON parsing
(surfacing as `ValueError`) yields a 400 response carrying its message;
and any other internal exception — anything outside the `ValueError`
family (`ValueError` and its subclass `JSONDecodeError`) — yields the
500 "Internal server error" response. -/
theorem process_webhook_status_envelope (cfg : Config)
    (oracle : Nat → Except PyErr String)
    (chatResult emailResult : Except PyErr Unit) (now : String)
    (event : JVal) :
    ((process_webhook cfg oracle chatResult emailResult now event).statusCode
        = 200
      ∨ (process_webhook cfg oracle chatResult emailResult now
          event).statusCode = 400
      ∨ (process_webhook cfg oracle chatResult emailResult now
          event).statusCode = 500)
    ∧ (∀ c2 e2, process_webhook cfg oracle c2 e2 now event =
        process_webhook cfg oracle chatResult emailResult now event)
    ∧ (∀ wd, parse_webhook_payload event = Except.ok wd →
        validate_webhook_data wd = Except.ok false →
        process_webhook cfg oracle chatResult emailResult now event =
          create_error_response 400 "Invalid webhook data" now)
    ∧ (∀ m, parse_webhook_payload event =
          Except.error (PyErr.valueError m) →
        process_webhook cfg oracle chatResult emailResult now event =
          create_error_response 400 m now)
    ∧ (∀ e, processTry cfg oracle chatResult emailResult now event =
          Except.error e →
        (∀ m, e ≠ PyErr.valueError m) →
        (∀ m, e ≠ PyErr.jsonDecodeError m) →
        process_webhook cfg oracle chatResult emailResult now event =
          create_error_response 500 "Internal server error" now) := by
  refine ⟨?_, ?_, ?_, ?_, ?_⟩
  · unfold process_webhook
    cases h : processTry cfg oracle chatResult emailResult now event with
    | ok r =>
      rcases processTry_ok_status cfg oracle chatResult emailResult now event
        r h with h2 | h2
      · exact Or.inl h2
      · exact Or.inr (Or.inl h2)
    | error e =>
      cases e with
      | valueError m => exact Or.inr (Or.inl rfl)
      | jsonDecodeError m => exact Or.inr (Or.inl rfl)
      | clientError m => exact Or.inr (Or.inr rfl)
      | typeError m => exact Or.inr (Or.inr rfl)
      | keyError m => exact Or.inr (Or.inr rfl)
      | indexError m => exact Or.inr (Or.inr rfl)
      | attributeError m => exact Or.inr (Or.inr rfl)
  · intro c2 e2
    unfold process_webhook
    rw [processTry_notify_indep cfg oracle now event c2 e2 chatResult
      emailResult]
  · intro wd h1 h2
    unfold process_webhook processTry
    rw [h1]
    dsimp only
    rw [h2]
  · intro m h1
    unfold process_webhook processTry
    rw [h1]
  · intro e he hnv hnj
    unfold process_webhook
    rw [he]
    cases e with
    | valueError m => exact absurd rfl (hnv m)
    | jsonDecodeError m => exact absurd rfl (hnj m)
    | clientError m => rfl
    | typeError m => rfl
    | keyError m => rfl
    | indexError m => rfl
    | attributeError m => rfl

/-- Claim C9 witness: a payload whose body is not valid JSON yields the
400 response carrying the parse failure's message, and a non-container
event — whose membership test raises a `TypeError`, an exception outside
the `ValueError` family — yields the 500 response. -/
theorem process_webhook_status_witness :
    process_webhook cfgABC oracleDown (Except.ok ()) (Except.ok ()) "t"
      (JVal.obj [("body", JVal.str "not json")]) =
    create_error_response 400
      "Invalid JSON in request body: Expecting value" "t"
    ∧ process_webhook cfgABC oracleDown (Except.ok ()) (Except.ok ()) "t"
      (JVal.num 7) =
    create_error_response 500 "Internal server error" "t" :=
  ⟨(process_webhook_status_envelope cfgABC oracleDown (Except.ok ())
      (Except.ok ()) "t" (JVal.obj [("body", JVal.str "not json")])).2.2.2.1
      "Invalid JSON in request body: Expecting value" rfl,
   (process_webhook_status_envelope cfgABC oracleDown (Except.ok ())
      (Except.ok ()) "t" (JVal.num 7)).2.2.2.2
      (PyErr.typeError "argument is not a container") rfl
      (fun _ h => PyErr.noConfusion h) (fun _ h => PyErr.noConfusion h)⟩
